import Mathlib

/-!
# Parameters of the incentives module

A shallow embedding of `x/incentives/types/params.go`: the `Params` aggregate, its two
constructors, the per-field validators working on untyped (`interface{}`) candidates, the
aggregate validation `Params.Validate`, and the key table `Params.ParamSetPairs`.

Conventions.
* A Go `interface{}` value is a `GoValue`: a dynamic type together with a value of that type.
* A function returning Go's `error` returns a `Result`: `nil`, a non-nil error, or a run-time
  panic (the only source of panics here is a method call on a decimal whose `*big.Int` is nil).
* An error built by `fmt.Errorf(format, operand)` is kept as the pair of the format string and
  the operand, `GoError.errorf format operand`; `Sprintf` renders the message.
* `time.Duration` is an `int64` count of nanoseconds and is embedded as an `Int`; the only
  operation the code performs on a run-time duration is the comparison `v <= 0`, which cannot
  overflow.  `sdk.Dec` wraps a `*big.Int` holding the value scaled by `10^18`.
-/

namespace Incentives

/-! ## `time` constants -/

/-- Smallest `int64`, hence the smallest `time.Duration`. -/
def minInt64 : Int := -(2 ^ 63)

/-- Largest `int64`, hence the largest `time.Duration`. -/
def maxInt64 : Int := 2 ^ 63 - 1

/-- Go `time.Nanosecond`. -/
def Nanosecond : Int := 1

/-- Go `time.Microsecond`. -/
def Microsecond : Int := 1000 * Nanosecond

/-- Go `time.Millisecond`. -/
def Millisecond : Int := 1000 * Microsecond

/-- Go `time.Second`. -/
def Second : Int := 1000 * Millisecond

/-- Go `time.Minute`. -/
def Minute : Int := 60 * Second

/-- Go `time.Hour`. -/
def Hour : Int := 60 * Minute

/-- Source: `DefaultEpochDuration time.Duration = time.Hour * 24`. A Go constant expression is
evaluated exactly (an overflow would be a compile error), so no wrap-around is applied. -/
def DefaultEpochDuration : Int := Hour * 24

/-! ## `sdk.Dec` -/

/-- Number of decimal places of an `sdk.Dec` (`sdk.Precision`). -/
def Precision : Nat := 18

/-- An `sdk.Dec` is `struct { i *big.Int }`: `i = none` is the nil pointer (the zero value of
the struct), `i = some x` stands for the decimal `x / 10^Precision`. -/
structure Dec where
  i : Option Int
deriving DecidableEq, Repr

/-- Go `(*big.Int).Sign`: `-1`, `0` or `+1`. -/
def bigSign (x : Int) : Int :=
  if x < 0 then -1 else if x = 0 then 0 else 1

/-- Go `(*big.Int).Cmp`: `-1` if `x < y`, `0` if `x = y`, `+1` if `x > y`. -/
def bigCmp (x y : Int) : Int :=
  if x < y then -1 else if x = y then 0 else 1

/-- Go `Dec.IsNil`: `d.i == nil`. -/
def Dec.IsNil (d : Dec) : Bool :=
  d.i.isNone

/-- Go `Dec.IsNegative`: `(d.i).Sign() == -1`. On a nil pointer the call panics: `none`. -/
def Dec.IsNegative (d : Dec) : Option Bool :=
  match d.i with
  | some x => some (decide (bigSign x = -1))
  | none => none

/-- Go `Dec.GT`: `(d.i).Cmp(d2.i) > 0`. On a nil pointer the call panics: `none`. -/
def Dec.GT (d d2 : Dec) : Option Bool :=
  match d.i, d2.i with
  | some x, some y => some (decide (0 < bigCmp x y))
  | _, _ => none

/-- Go `sdk.OneDec()`: the decimal `1`, that is the scaled integer `10^Precision`. -/
def OneDec : Dec :=
  ⟨some (10 ^ Precision)⟩

/-- Go `precisionMultiplier(prec)`: `10^(Precision - prec)`. The Go function panics when
`prec > Precision`; the argument type excludes those inputs. -/
def precisionMultiplier (prec : Fin (Precision + 1)) : Int :=
  10 ^ (Precision - prec.val)

/-- Go `sdk.NewDecWithPrec(i, prec)`: the decimal `i / 10^prec`, stored as
`i * precisionMultiplier(prec)`. -/
def NewDecWithPrec (i : Int) (prec : Fin (Precision + 1)) : Dec :=
  ⟨some (i * precisionMultiplier prec)⟩

/-- The exact value of a decimal as a rational number; `none` for the nil decimal. -/
def Dec.value (d : Dec) : Option ℚ :=
  match d.i with
  | some x => some ((x : ℚ) / (10 : ℚ) ^ Precision)
  | none => none

/-! ## Untyped values, errors, results -/

/-- A Go `interface{}` value: its dynamic type and the value of that type. `other T` is a value
of any dynamic type not listed, `T` being the name `%T` prints for it. -/
inductive GoValue where
  | nil : GoValue
  | bool (b : Bool) : GoValue
  | int (n : Int) : GoValue
  | int64 (n : Int) : GoValue
  | string (s : String) : GoValue
  | duration (d : Int) : GoValue
  | dec (d : Dec) : GoValue
  | other (T : String) : GoValue
deriving DecidableEq, Repr

/-- What the verb `%T` prints for a value: the name of its dynamic type. -/
def typeName : GoValue → String
  | .nil => "<nil>"
  | .bool _ => "bool"
  | .int _ => "int"
  | .int64 _ => "int64"
  | .string _ => "string"
  | .duration _ => "time.Duration"
  | .dec _ => "types.Dec"
  | .other T => T

/-- An error value. `errorf format operand` is `fmt.Errorf(format, operand)`, `new text` is
`errors.New(text)`, and `identifierGrammar s` is the error of the epochs package for a string
that is not a legal epoch identifier. -/
inductive GoError where
  | errorf (format : String) (operand : GoValue) : GoError
  | new (text : String) : GoError
  | identifierGrammar (s : String) : GoError
deriving DecidableEq, Repr

/-- The outcome of a Go function whose return type is `error`. -/
inductive Result where
  | nil : Result
  | err (e : GoError) : Result
  | panic : Result
deriving DecidableEq, Repr

/-- Rendering of a format with one verb and one operand, the only shape used in this file:
`%T` prints the operand's dynamic type, `%s` prints the operand through its `String()` method,
which is library code and is taken as the parameter `str`. -/
def Sprintf (str : GoValue → String) : List Char → GoValue → List Char
  | [], _ => []
  | c :: rest, a =>
    match c, rest with
    | '%', 'T' :: rest2 => (typeName a).toList ++ rest2
    | '%', 's' :: rest2 => (str a).toList ++ rest2
    | _, _ => c :: Sprintf str rest a

/-- The message of the error `fmt.Errorf(format, operand)`. -/
def errorfMessage (str : GoValue → String) (format : String) (operand : GoValue) : String :=
  String.mk (Sprintf str format.toList operand)

/-! ## The epoch identifier check -/

/-- Modelled from the spec: `epochtypes.ValidateEpochIdentifierString` (package `x/epochs/types`)
is not among the sources. The spec describes it as the strict check "is this specific string
currently a legal identifier", the constraint being "non-empty, recognized period name", where
the recognized names are owned by an external registry (e.g. "day", "week"). The registry is
the parameter `registry`; a rejected string gives the identifier-grammar error. -/
def ValidateEpochIdentifierString (registry : List String) (s : String) : Result :=
  if s ≠ "" ∧ s ∈ registry then .nil else .err (.identifierGrammar s)

/-! ## `Params` -/

/-- Modelled from the spec: the declaration of the struct `Params` is generated code that is
not among the sources. Its four fields are those `NewParams` sets and the spec's data model
lists: a boolean, a signed duration, a decimal and a string. -/
structure Params where
  EnableIncentives : Bool
  EpochDuration : Int
  AllocationLimit : Dec
  IncentivesEpochIdentifier : String
deriving DecidableEq, Repr

/-- Source: `NewParams`. -/
def NewParams (enableIncentives : Bool) (epocheDuration : Int) (allocationLimit : Dec)
    (epochIdentifier : String) : Params :=
  { EnableIncentives := enableIncentives
    EpochDuration := epocheDuration
    AllocationLimit := allocationLimit
    IncentivesEpochIdentifier := epochIdentifier }

/-- Source: `DefaultParams`. -/
def DefaultParams : Params :=
  { EnableIncentives := true
    EpochDuration := DefaultEpochDuration
    AllocationLimit := NewDecWithPrec 5 2
    IncentivesEpochIdentifier := "week" }

/-- Source: `validateBool`. The type assertion `i.(bool)` succeeds exactly on a `bool`. -/
def validateBool (i : GoValue) : Result :=
  match i with
  | .bool _ => .nil
  | _ => .err (.errorf "invalid parameter type: %T" i)

/-- Source: `validatePeriod`. -/
def validatePeriod (i : GoValue) : Result :=
  match i with
  | .duration v =>
    if v ≤ 0 then .err (.errorf "voting period must be positive: %s" (.duration v))
    else .nil
  | _ => .err (.errorf "invalid parameter type: %T" i)

/-- Source: `validatePercentage`. The three method calls happen in the order of the source; a
call on a nil decimal other than `IsNil` would panic. -/
def validatePercentage (i : GoValue) : Result :=
  match i with
  | .dec dec =>
    if dec.IsNil then .err (.new "allocation limit cannot be nil")
    else
      match dec.IsNegative with
      | none => .panic
      | some true => .err (.errorf "allocation limit must be positive: %s" (.dec dec))
      | some false =>
        match dec.GT OneDec with
        | none => .panic
        | some true => .err (.errorf "allocation limit must <= 100: %s" (.dec dec))
        | some false => .nil
  | _ => .err (.errorf "invalid parameter type: %T" i)

/-- Source: `Params.Validate`. Each `if err := f(x); err != nil { return err }` returns the
first outcome that is not `nil`; the last check is the strict identifier check. -/
def Params.Validate (registry : List String) (p : Params) : Result :=
  match validateBool (.bool p.EnableIncentives) with
  | .nil =>
    match validatePeriod (.duration p.EpochDuration) with
    | .nil =>
      match validatePercentage (.dec p.AllocationLimit) with
      | .nil => ValidateEpochIdentifierString registry p.IncentivesEpochIdentifier
      | r => r
    | r => r
  | r => r

/-! ## The key table -/

/-- Go `[]byte(s)`: the UTF-8 encoding of the string, one number below 256 per byte. -/
def bytes (s : String) : List Nat :=
  (s.toList.flatMap String.utf8EncodeChar).map UInt8.toNat

/-- Source: `ParamStoreKeyEnableIncentives = []byte("EnableIncentives")`. -/
def ParamStoreKeyEnableIncentives : List Nat := bytes "EnableIncentives"

/-- Source: `ParamStoreKeyEpochDuration = []byte("EpochDuration")`. -/
def ParamStoreKeyEpochDuration : List Nat := bytes "EpochDuration"

/-- Source: `ParamStoreKeyAllocationLimit = []byte("AllocationLimit")`. -/
def ParamStoreKeyAllocationLimit : List Nat := bytes "AllocationLimit"

/-- Source: `ParamStoreKeyEpochIdentifier = []byte("EpochIdentifier")`. -/
def ParamStoreKeyEpochIdentifier : List Nat := bytes "EpochIdentifier"

/-- The four fields of `Params`, as the targets a field pointer can have. -/
inductive Field where
  | EnableIncentives : Field
  | EpochDuration : Field
  | AllocationLimit : Field
  | IncentivesEpochIdentifier : Field
deriving DecidableEq, Repr

/-- A pointer `&p.F` to a field of a `Params`: the aggregate `base` it points into and the
field it points at. -/
structure FieldPtr where
  base : Params
  field : Field
deriving DecidableEq, Repr

/-- The value a field pointer currently points at, boxed as an `interface{}` with the static
type of the field as its dynamic type. -/
def FieldPtr.load (ptr : FieldPtr) : GoValue :=
  match ptr.field with
  | .EnableIncentives => .bool ptr.base.EnableIncentives
  | .EpochDuration => .duration ptr.base.EpochDuration
  | .AllocationLimit => .dec ptr.base.AllocationLimit
  | .IncentivesEpochIdentifier => .string ptr.base.IncentivesEpochIdentifier

/-- Go `paramtypes.ParamSetPair`: a key, a pointer to the value stored under it, and the
validator that gates writes to the key. -/
structure ParamSetPair where
  Key : List Nat
  Value : FieldPtr
  ValidatorFn : GoValue → Result

/-- Go `paramtypes.NewParamSetPair(key, value, vfn)`: the pair of its three arguments. -/
def NewParamSetPair (key : List Nat) (value : FieldPtr) (vfn : GoValue → Result) :
    ParamSetPair :=
  ⟨key, value, vfn⟩

/-- Modelled from the spec: `epochtypes.ValidateEpochIdentifierInterface` (package
`x/epochs/types`) is not among the sources. The spec describes it as the generic check "is this
shape of value acceptable", used in the key table, "where the value may still be an untyped
candidate", the strict check being the stricter of the two. The shape accepted is a string that
is non-empty; a value of another type gives the type-mismatch error and the empty string the
identifier-grammar error. -/
def ValidateEpochIdentifierInterface (i : GoValue) : Result :=
  match i with
  | .string s => if s ≠ "" then .nil else .err (.identifierGrammar s)
  | _ => .err (.errorf "invalid parameter type: %T" i)

/-- Source: `Params.ParamSetPairs`. The receiver is the aggregate the four pointers point
into. -/
def Params.ParamSetPairs (p : Params) : List ParamSetPair :=
  [ NewParamSetPair ParamStoreKeyEnableIncentives ⟨p, .EnableIncentives⟩ validateBool,
    NewParamSetPair ParamStoreKeyEpochDuration ⟨p, .EpochDuration⟩ validatePeriod,
    NewParamSetPair ParamStoreKeyAllocationLimit ⟨p, .AllocationLimit⟩ validatePercentage,
    NewParamSetPair ParamStoreKeyEpochIdentifier ⟨p, .IncentivesEpochIdentifier⟩
      ValidateEpochIdentifierInterface ]

/-! ## Basic facts about the library operations and the validators -/

theorem bigSign_eq_neg_one_iff (x : Int) : bigSign x = -1 ↔ x < 0 := by
  unfold bigSign
  split_ifs with h1 h2 <;> simp_all

theorem bigCmp_pos_iff (x y : Int) : 0 < bigCmp x y ↔ y < x := by
  unfold bigCmp
  split_ifs with h1 h2
  · simp only [Left.neg_pos_iff, Int.reduceNeg]
    constructor
    · intro h
      exact absurd h (by decide)
    · intro h
      omega
  · subst h2
    simp
  · simp only [zero_lt_one, true_iff]
    omega

theorem Dec.value_mk_some (x : Int) :
    Dec.value ⟨some x⟩ = some ((x : ℚ) / (10 : ℚ) ^ Precision) := rfl

theorem Dec.value_eq_some_iff (d : Dec) (f : ℚ) :
    d.value = some f ↔ ∃ x : Int, d = ⟨some x⟩ ∧ f = (x : ℚ) / (10 : ℚ) ^ Precision := by
  obtain ⟨i⟩ := d
  cases i with
  | none => simp [Dec.value]
  | some x =>
    simp only [Dec.value, Option.some.injEq, Dec.mk.injEq]
    constructor
    · intro h
      exact ⟨x, rfl, h.symm⟩
    · rintro ⟨y, hy, hf⟩
      subst hy
      exact hf.symm

theorem scaled_neg_iff (x : Int) : (x : ℚ) / (10 : ℚ) ^ Precision < 0 ↔ x < 0 := by
  have h10 : (0 : ℚ) < (10 : ℚ) ^ Precision := by positivity
  rw [div_lt_iff₀ h10, zero_mul]
  exact_mod_cast Iff.rfl

theorem scaled_gt_one_iff (x : Int) :
    1 < (x : ℚ) / (10 : ℚ) ^ Precision ↔ (10 : Int) ^ Precision < x := by
  have h10 : (0 : ℚ) < (10 : ℚ) ^ Precision := by positivity
  rw [lt_div_iff₀ h10, one_mul]
  exact_mod_cast Iff.rfl

theorem validatePeriod_duration (d : Int) :
    validatePeriod (.duration d) =
      if d ≤ 0 then .err (.errorf "voting period must be positive: %s" (.duration d))
      else .nil := rfl

theorem validatePercentage_nil_dec :
    validatePercentage (.dec ⟨none⟩) = .err (.new "allocation limit cannot be nil") := rfl

theorem validatePercentage_present (x : Int) :
    validatePercentage (.dec ⟨some x⟩) =
      if x < 0 then .err (.errorf "allocation limit must be positive: %s" (.dec ⟨some x⟩))
      else if (10 : Int) ^ Precision < x then
        .err (.errorf "allocation limit must <= 100: %s" (.dec ⟨some x⟩))
      else .nil := by
  by_cases h1 : x < 0
  · have hs : bigSign x = -1 := (bigSign_eq_neg_one_iff x).2 h1
    simp [validatePercentage, Dec.IsNil, Dec.IsNegative, hs, h1]
  · have hs : ¬ bigSign x = -1 := fun h => h1 ((bigSign_eq_neg_one_iff x).1 h)
    by_cases h2 : (10 : Int) ^ Precision < x
    · have hc : 0 < bigCmp x (10 ^ Precision) := (bigCmp_pos_iff x _).2 h2
      simp [validatePercentage, Dec.IsNil, Dec.IsNegative, Dec.GT, OneDec, hs, h1, h2, hc]
    · have hc : ¬ 0 < bigCmp x (10 ^ Precision) := fun h => h2 ((bigCmp_pos_iff x _).1 h)
      simp [validatePercentage, Dec.IsNil, Dec.IsNegative, Dec.GT, OneDec, hs, h1, h2, hc]

theorem validatePercentage_other (v : GoValue) (h : ∀ d : Dec, v ≠ .dec d) :
    validatePercentage v = .err (.errorf "invalid parameter type: %T" v) := by
  cases v with
  | dec d => exact absurd rfl (h d)
  | _ => rfl

theorem validateBool_other (v : GoValue) (h : ∀ b : Bool, v ≠ .bool b) :
    validateBool v = .err (.errorf "invalid parameter type: %T" v) := by
  cases v with
  | bool b => exact absurd rfl (h b)
  | _ => rfl

theorem validatePeriod_other (v : GoValue) (h : ∀ d : Int, v ≠ .duration d) :
    validatePeriod v = .err (.errorf "invalid parameter type: %T" v) := by
  cases v with
  | duration d => exact absurd rfl (h d)
  | _ => rfl

theorem errorfMessage_type (str : GoValue → String) (v : GoValue) :
    errorfMessage str "invalid parameter type: %T" v
      = "invalid parameter type: " ++ typeName v := by
  simp [errorfMessage, Sprintf]
  rfl

theorem validateBool_bool (b : Bool) : validateBool (.bool b) = .nil := rfl

theorem Validate_of_period_ne (registry : List String) (p : Params)
    (h : validatePeriod (.duration p.EpochDuration) ≠ .nil) :
    p.Validate registry = validatePeriod (.duration p.EpochDuration) := by
  unfold Params.Validate
  rw [validateBool_bool]
  generalize validatePeriod (.duration p.EpochDuration) = r at h ⊢
  cases r with
  | nil => exact absurd rfl h
  | err e => rfl
  | panic => rfl

theorem Validate_of_percentage_ne (registry : List String) (p : Params)
    (h1 : validatePeriod (.duration p.EpochDuration) = .nil)
    (h2 : validatePercentage (.dec p.AllocationLimit) ≠ .nil) :
    p.Validate registry = validatePercentage (.dec p.AllocationLimit) := by
  unfold Params.Validate
  rw [validateBool_bool, h1]
  generalize validatePercentage (.dec p.AllocationLimit) = r at h2 ⊢
  cases r with
  | nil => exact absurd rfl h2
  | err e => rfl
  | panic => rfl

theorem Validate_of_fields_nil (registry : List String) (p : Params)
    (h1 : validatePeriod (.duration p.EpochDuration) = .nil)
    (h2 : validatePercentage (.dec p.AllocationLimit) = .nil) :
    p.Validate registry
      = ValidateEpochIdentifierString registry p.IncentivesEpochIdentifier := by
  unfold Params.Validate
  rw [validateBool_bool, h1, h2]

theorem validatePeriod_duration_nil_iff (d : Int) :
    validatePeriod (.duration d) = .nil ↔ 0 < d := by
  rw [validatePeriod_duration]
  by_cases h : d ≤ 0
  · rw [if_pos h]
    constructor
    · intro h2
      exact Result.noConfusion h2
    · intro h2
      omega
  · rw [if_neg h]
    constructor
    · intro _
      omega
    · intro _
      rfl

theorem validatePercentage_dec_nil_iff (a : Dec) :
    validatePercentage (.dec a) = .nil ↔
      a.IsNil = false ∧ ∃ f : ℚ, a.value = some f ∧ 0 ≤ f ∧ f ≤ 1 := by
  obtain ⟨i⟩ := a
  cases i with
  | none =>
    rw [validatePercentage_nil_dec]
    constructor
    · intro h
      exact Result.noConfusion h
    · rintro ⟨h, _⟩
      exact Bool.noConfusion h
  | some x =>
    rw [validatePercentage_present, Dec.value_mk_some]
    by_cases h1 : x < 0
    · rw [if_pos h1]
      constructor
      · intro h
        exact Result.noConfusion h
      · rintro ⟨_, f, hf, h0, _⟩
        rw [Option.some.injEq] at hf
        subst hf
        exact absurd ((scaled_neg_iff x).2 h1) (not_lt.2 h0)
    · rw [if_neg h1]
      by_cases h2 : (10 : Int) ^ Precision < x
      · rw [if_pos h2]
        constructor
        · intro h
          exact Result.noConfusion h
        · rintro ⟨_, f, hf, _, hle⟩
          rw [Option.some.injEq] at hf
          subst hf
          exact absurd ((scaled_gt_one_iff x).2 h2) (not_lt.2 hle)
      · rw [if_neg h2]
        constructor
        · intro _
          refine ⟨rfl, _, rfl, ?_, ?_⟩
          · exact not_lt.1 (fun hf => h1 ((scaled_neg_iff x).1 hf))
          · exact not_lt.1 (fun hf => h2 ((scaled_gt_one_iff x).1 hf))
        · intro _
          rfl

theorem validatePercentage_dec_cases (a : Dec) :
    validatePercentage (.dec a) = .nil ∨
    validatePercentage (.dec a) = .err (.new "allocation limit cannot be nil") ∨
    validatePercentage (.dec a)
      = .err (.errorf "allocation limit must be positive: %s" (.dec a)) ∨
    validatePercentage (.dec a)
      = .err (.errorf "allocation limit must <= 100: %s" (.dec a)) := by
  obtain ⟨i⟩ := a
  cases i with
  | none => exact Or.inr (Or.inl rfl)
  | some x =>
    rw [validatePercentage_present]
    by_cases h1 : x < 0
    · rw [if_pos h1]
      exact Or.inr (Or.inr (Or.inl rfl))
    · rw [if_neg h1]
      by_cases h2 : (10 : Int) ^ Precision < x
      · rw [if_pos h2]
        exact Or.inr (Or.inr (Or.inr rfl))
      · rw [if_neg h2]
        exact Or.inl rfl

theorem ValidateEpochIdentifierString_nil_iff (registry : List String) (s : String) :
    ValidateEpochIdentifierString registry s = .nil ↔ s ≠ "" ∧ s ∈ registry := by
  unfold ValidateEpochIdentifierString
  by_cases h : s ≠ "" ∧ s ∈ registry
  · rw [if_pos h]
    exact ⟨fun _ => h, fun _ => rfl⟩
  · rw [if_neg h]
    exact ⟨fun h2 => Result.noConfusion h2, fun h2 => absurd h2 h⟩

theorem ValidateEpochIdentifierString_of_not_mem (registry : List String) (s : String)
    (h : s ∉ registry) :
    ValidateEpochIdentifierString registry s = .err (.identifierGrammar s) := by
  unfold ValidateEpochIdentifierString
  rw [if_neg (fun h2 => h h2.2)]

theorem ValidateEpochIdentifierString_cases (registry : List String) (s : String) :
    ValidateEpochIdentifierString registry s = .nil ∨
    ValidateEpochIdentifierString registry s = .err (.identifierGrammar s) := by
  unfold ValidateEpochIdentifierString
  by_cases h : s ≠ "" ∧ s ∈ registry
  · rw [if_pos h]
    exact Or.inl rfl
  · rw [if_neg h]
    exact Or.inr rfl

theorem Validate_nil_fields (registry : List String) (p : Params)
    (h : p.Validate registry = .nil) :
    validatePeriod (.duration p.EpochDuration) = .nil ∧
    validatePercentage (.dec p.AllocationLimit) = .nil ∧
    ValidateEpochIdentifierString registry p.IncentivesEpochIdentifier = .nil := by
  by_cases h1 : validatePeriod (.duration p.EpochDuration) = .nil
  · by_cases h2 : validatePercentage (.dec p.AllocationLimit) = .nil
    · rw [Validate_of_fields_nil registry p h1 h2] at h
      exact ⟨h1, h2, h⟩
    · rw [Validate_of_percentage_ne registry p h1 h2] at h
      exact absurd h h2
  · rw [Validate_of_period_ne registry p h1] at h
    exact absurd h h1

theorem Validate_cases (registry : List String) (p : Params) :
    p.Validate registry = .nil ∨
    p.Validate registry
      = .err (.errorf "voting period must be positive: %s" (.duration p.EpochDuration)) ∨
    p.Validate registry = .err (.new "allocation limit cannot be nil") ∨
    p.Validate registry
      = .err (.errorf "allocation limit must be positive: %s" (.dec p.AllocationLimit)) ∨
    p.Validate registry
      = .err (.errorf "allocation limit must <= 100: %s" (.dec p.AllocationLimit)) ∨
    p.Validate registry = .err (.identifierGrammar p.IncentivesEpochIdentifier) := by
  by_cases h1 : validatePeriod (.duration p.EpochDuration) = .nil
  · by_cases h2 : validatePercentage (.dec p.AllocationLimit) = .nil
    · rw [Validate_of_fields_nil registry p h1 h2]
      rcases ValidateEpochIdentifierString_cases registry p.IncentivesEpochIdentifier
        with h | h
      · exact Or.inl h
      · exact Or.inr (Or.inr (Or.inr (Or.inr (Or.inr h))))
    · rw [Validate_of_percentage_ne registry p h1 h2]
      rcases validatePercentage_dec_cases p.AllocationLimit with h | h | h | h
      · exact absurd h h2
      · exact Or.inr (Or.inr (Or.inl h))
      · exact Or.inr (Or.inr (Or.inr (Or.inl h)))
      · exact Or.inr (Or.inr (Or.inr (Or.inr (Or.inl h))))
  · rw [Validate_of_period_ne registry p h1]
    have hd : p.EpochDuration ≤ 0 := by
      by_contra hd
      exact h1 ((validatePeriod_duration_nil_iff _).2 (not_le.1 hd))
    rw [validatePeriod_duration, if_pos hd]
    exact Or.inr (Or.inl rfl)

theorem errorfMessage_period (str : GoValue → String) (v : GoValue) :
    errorfMessage str "voting period must be positive: %s" v
      = "voting period must be positive: " ++ str v := by
  simp [errorfMessage, Sprintf]
  rfl

/-! ## The per-field validators -/

/-- C1: `validatePeriod` returns no error exactly on a `time.Duration` that is strictly
positive. Every duration `d ≤ 0` is rejected with the range error, among them `0` and the
smallest `int64` duration, and every duration `d > 0` is accepted. -/
theorem validatePeriod_nil_iff (v : GoValue) :
    (validatePeriod v = .nil ↔ ∃ d : Int, v = .duration d ∧ 0 < d) ∧
    (∀ d : Int, d ≤ 0 → validatePeriod (.duration d)
        = .err (.errorf "voting period must be positive: %s" (.duration d))) ∧
    (∀ d : Int, 0 < d → validatePeriod (.duration d) = .nil) ∧
    validatePeriod (.duration 0)
      = .err (.errorf "voting period must be positive: %s" (.duration 0)) ∧
    validatePeriod (.duration minInt64)
      = .err (.errorf "voting period must be positive: %s" (.duration minInt64)) := by
  refine ⟨?_, ?_, ?_, by decide, by decide⟩
  · constructor
    · intro h
      cases v with
      | duration d =>
        refine ⟨d, rfl, ?_⟩
        rw [validatePeriod_duration] at h
        by_contra hd
        rw [if_pos (not_lt.1 hd)] at h
        exact Result.noConfusion h
      | _ => exact Result.noConfusion h
    · rintro ⟨d, rfl, hd⟩
      rw [validatePeriod_duration, if_neg (not_le.2 hd)]
  · intro d hd
    rw [validatePeriod_duration, if_pos hd]
  · intro d hd
    rw [validatePeriod_duration, if_neg (not_le.2 hd)]

/-- Witness for C1: the duration `-1` is rejected with the range error. -/
theorem validatePeriod_nil_iff_witness :
    (-1 : Int) ≤ 0 ∧ validatePeriod (.duration (-1))
      = .err (.errorf "voting period must be positive: %s" (.duration (-1))) :=
  ⟨by decide, (validatePeriod_nil_iff (.duration (-1))).2.1 (-1) (by decide)⟩

/-- C2: `validatePercentage` returns no error exactly on an `sdk.Dec` that is present and
whose exact value `f` satisfies `0 ≤ f ≤ 1`. It rejects every `f < 0`, every `f > 1` and the
nil decimal; `0` and `1.0` are accepted and `1.0000001` is rejected. -/
theorem validatePercentage_nil_iff (v : GoValue) :
    (validatePercentage v = .nil ↔
      ∃ (d : Dec) (f : ℚ), v = .dec d ∧ d.value = some f ∧ 0 ≤ f ∧ f ≤ 1) ∧
    (∀ (d : Dec) (f : ℚ), d.value = some f → f < 0 → validatePercentage (.dec d)
        = .err (.errorf "allocation limit must be positive: %s" (.dec d))) ∧
    (∀ (d : Dec) (f : ℚ), d.value = some f → 1 < f → validatePercentage (.dec d)
        = .err (.errorf "allocation limit must <= 100: %s" (.dec d))) ∧
    validatePercentage (.dec ⟨none⟩) = .err (.new "allocation limit cannot be nil") ∧
    ((NewDecWithPrec 0 0).value = some 0 ∧
      validatePercentage (.dec (NewDecWithPrec 0 0)) = .nil) ∧
    ((NewDecWithPrec 1 0).value = some 1 ∧
      validatePercentage (.dec (NewDecWithPrec 1 0)) = .nil) ∧
    ((NewDecWithPrec 10000001 7).value = some (10000001 / 10000000) ∧
      validatePercentage (.dec (NewDecWithPrec 10000001 7))
        = .err (.errorf "allocation limit must <= 100: %s"
            (.dec (NewDecWithPrec 10000001 7)))) := by
  refine ⟨?_, ?_, ?_, rfl, ⟨?_, by decide⟩, ⟨?_, by decide⟩, ⟨?_, by decide⟩⟩
  · constructor
    · intro h
      cases v with
      | dec d =>
        obtain ⟨i⟩ := d
        cases i with
        | none => exact Result.noConfusion h
        | some x =>
          rw [validatePercentage_present] at h
          by_cases h1 : x < 0
          · rw [if_pos h1] at h
            exact Result.noConfusion h
          · rw [if_neg h1] at h
            by_cases h2 : (10 : Int) ^ Precision < x
            · rw [if_pos h2] at h
              exact Result.noConfusion h
            · refine ⟨⟨some x⟩, _, rfl, rfl, ?_, ?_⟩
              · exact not_lt.1 (fun hf => h1 ((scaled_neg_iff x).1 hf))
              · exact not_lt.1 (fun hf => h2 ((scaled_gt_one_iff x).1 hf))
      | _ => exact Result.noConfusion h
    · rintro ⟨d, f, rfl, hf, h0, h1⟩
      obtain ⟨x, rfl, rfl⟩ := (Dec.value_eq_some_iff d f).1 hf
      have hx0 : ¬ x < 0 := fun h => not_lt.2 h0 ((scaled_neg_iff x).2 h)
      have hx1 : ¬ (10 : Int) ^ Precision < x :=
        fun h => not_lt.2 h1 ((scaled_gt_one_iff x).2 h)
      rw [validatePercentage_present, if_neg hx0, if_neg hx1]
  · intro d f hf hneg
    obtain ⟨x, rfl, rfl⟩ := (Dec.value_eq_some_iff d f).1 hf
    rw [validatePercentage_present, if_pos ((scaled_neg_iff x).1 hneg)]
  · intro d f hf hbig
    obtain ⟨x, rfl, rfl⟩ := (Dec.value_eq_some_iff d f).1 hf
    have hx1 : (10 : Int) ^ Precision < x := (scaled_gt_one_iff x).1 hbig
    have hx0 : ¬ x < 0 := by
      have : (0 : Int) < 10 ^ Precision := by positivity
      omega
    rw [validatePercentage_present, if_neg hx0, if_pos hx1]
  · have h : NewDecWithPrec 0 0 = ⟨some 0⟩ := by decide
    rw [h, Dec.value_mk_some]
    norm_num
  · have h : NewDecWithPrec 1 0 = ⟨some 1000000000000000000⟩ := by decide
    rw [h, Dec.value_mk_some]
    norm_num [Precision]
  · have h : NewDecWithPrec 10000001 7 = ⟨some 1000000100000000000⟩ := by decide
    rw [h, Dec.value_mk_some]
    norm_num [Precision]

/-- Witness for C2: the decimal `-0.5` (scaled integer `-5 * 10^17`) is rejected as negative. -/
theorem validatePercentage_nil_iff_witness :
    (NewDecWithPrec (-5) 1).value = some (-1 / 2) ∧ (-1 / 2 : ℚ) < 0 ∧
    validatePercentage (.dec (NewDecWithPrec (-5) 1))
      = .err (.errorf "allocation limit must be positive: %s"
          (.dec (NewDecWithPrec (-5) 1))) :=
  have hv : (NewDecWithPrec (-5) 1).value = some (-1 / 2) := by
    have h : NewDecWithPrec (-5) 1 = ⟨some (-500000000000000000)⟩ := by decide
    rw [h, Dec.value_mk_some]
    norm_num [Precision]
  ⟨hv, by norm_num,
    (validatePercentage_nil_iff (.dec (NewDecWithPrec (-5) 1))).2.1
      (NewDecWithPrec (-5) 1) (-1 / 2) hv (by norm_num)⟩

/-- C3: `validateBool` returns no error exactly on a `bool`, `true` and `false` alike. Every
other input, among them the integers `0` and `1` and the string `"true"`, gets the
type-mismatch error, whose message ends with the dynamic type of the input. -/
theorem validateBool_nil_iff (str : GoValue → String) (v : GoValue) :
    (validateBool v = .nil ↔ ∃ b : Bool, v = .bool b) ∧
    validateBool (.bool true) = .nil ∧ validateBool (.bool false) = .nil ∧
    ((∀ b : Bool, v ≠ .bool b) →
      validateBool v = .err (.errorf "invalid parameter type: %T" v) ∧
      errorfMessage str "invalid parameter type: %T" v
        = "invalid parameter type: " ++ typeName v) ∧
    (validateBool (.int 0) = .err (.errorf "invalid parameter type: %T" (.int 0)) ∧
      errorfMessage str "invalid parameter type: %T" (.int 0)
        = "invalid parameter type: int") ∧
    (validateBool (.int 1) = .err (.errorf "invalid parameter type: %T" (.int 1)) ∧
      errorfMessage str "invalid parameter type: %T" (.int 1)
        = "invalid parameter type: int") ∧
    (validateBool (.string "true")
        = .err (.errorf "invalid parameter type: %T" (.string "true")) ∧
      errorfMessage str "invalid parameter type: %T" (.string "true")
        = "invalid parameter type: string") := by
  refine ⟨?_, rfl, rfl, ?_, ⟨rfl, ?_⟩, ⟨rfl, ?_⟩, ⟨rfl, ?_⟩⟩
  · constructor
    · intro h
      cases v with
      | bool b => exact ⟨b, rfl⟩
      | _ => exact Result.noConfusion h
    · rintro ⟨b, rfl⟩
      rfl
  · intro h
    exact ⟨validateBool_other v h, errorfMessage_type str v⟩
  · rw [errorfMessage_type]
    rfl
  · rw [errorfMessage_type]
    rfl
  · rw [errorfMessage_type]
    rfl

/-- Witness for C3: the 64-bit integer `1` is rejected, and the message names `int64`. -/
theorem validateBool_nil_iff_witness :
    (∀ b : Bool, GoValue.int64 1 ≠ .bool b) ∧
    validateBool (.int64 1) = .err (.errorf "invalid parameter type: %T" (.int64 1)) ∧
    errorfMessage (fun _ => "") "invalid parameter type: %T" (.int64 1)
      = "invalid parameter type: " ++ typeName (.int64 1) :=
  ⟨fun _ h => GoValue.noConfusion h,
    (validateBool_nil_iff (fun _ => "") (.int64 1)).2.2.2.1
      (fun _ h => GoValue.noConfusion h)⟩

/-! ## Aggregate validation -/

/-- C4: `Validate` returns no error exactly when the duration is positive, the allocation limit
is present with a value in `[0, 1]`, and the strict identifier check accepts the identifier;
the enable flag, being a `bool`, always passes. Hence a validated aggregate passes each of the
four field checks. -/
theorem Validate_nil_iff (registry : List String) (p : Params) :
    (p.Validate registry = .nil ↔
      0 < p.EpochDuration ∧
      (p.AllocationLimit.IsNil = false ∧
        ∃ f : ℚ, p.AllocationLimit.value = some f ∧ 0 ≤ f ∧ f ≤ 1) ∧
      ValidateEpochIdentifierString registry p.IncentivesEpochIdentifier = .nil) ∧
    validateBool (.bool p.EnableIncentives) = .nil ∧
    (p.Validate registry = .nil →
      validateBool (.bool p.EnableIncentives) = .nil ∧
      validatePeriod (.duration p.EpochDuration) = .nil ∧
      validatePercentage (.dec p.AllocationLimit) = .nil ∧
      ValidateEpochIdentifierString registry p.IncentivesEpochIdentifier = .nil) := by
  have key : p.Validate registry = .nil →
      validatePeriod (.duration p.EpochDuration) = .nil ∧
      validatePercentage (.dec p.AllocationLimit) = .nil ∧
      ValidateEpochIdentifierString registry p.IncentivesEpochIdentifier = .nil := by
    intro h
    by_cases h1 : validatePeriod (.duration p.EpochDuration) = .nil
    · by_cases h2 : validatePercentage (.dec p.AllocationLimit) = .nil
      · rw [Validate_of_fields_nil registry p h1 h2] at h
        exact ⟨h1, h2, h⟩
      · rw [Validate_of_percentage_ne registry p h1 h2] at h
        exact absurd h h2
    · rw [Validate_of_period_ne registry p h1] at h
      exact absurd h h1
  refine ⟨?_, rfl, ?_⟩
  · constructor
    · intro h
      obtain ⟨h1, h2, h3⟩ := key h
      exact ⟨(validatePeriod_duration_nil_iff _).1 h1,
        (validatePercentage_dec_nil_iff _).1 h2, h3⟩
    · rintro ⟨h1, h2, h3⟩
      rw [Validate_of_fields_nil registry p ((validatePeriod_duration_nil_iff _).2 h1)
        ((validatePercentage_dec_nil_iff _).2 h2)]
      exact h3
  · intro h
    exact ⟨rfl, key h⟩

/-- Witness for C4: the default aggregate validates when "day" and "week" are the recognized
identifiers, hence passes the four field checks. -/
theorem Validate_nil_iff_witness :
    DefaultParams.Validate ["day", "week"] = .nil ∧
    validateBool (.bool DefaultParams.EnableIncentives) = .nil ∧
    validatePeriod (.duration DefaultParams.EpochDuration) = .nil ∧
    validatePercentage (.dec DefaultParams.AllocationLimit) = .nil ∧
    ValidateEpochIdentifierString ["day", "week"] DefaultParams.IncentivesEpochIdentifier
      = .nil :=
  ⟨by decide, (Validate_nil_iff ["day", "week"] DefaultParams).2.2 (by decide)⟩

/-- C5: the default aggregate `(true, 24 hours, 0.05, "week")` passes the boolean, period and
percentage checks, and, "week" being a recognized identifier, the strict identifier check, so
`DefaultParams().Validate()` returns no error; in particular this holds when "day" and "week"
are the recognized identifiers. -/
theorem DefaultParams_Validate :
    (∀ registry : List String, "week" ∈ registry →
      validateBool (.bool DefaultParams.EnableIncentives) = .nil ∧
      validatePeriod (.duration DefaultParams.EpochDuration) = .nil ∧
      validatePercentage (.dec DefaultParams.AllocationLimit) = .nil ∧
      ValidateEpochIdentifierString registry DefaultParams.IncentivesEpochIdentifier = .nil ∧
      DefaultParams.Validate registry = .nil) ∧
    DefaultParams.Validate ["day", "week"] = .nil := by
  have h1 : validatePeriod (.duration DefaultParams.EpochDuration) = .nil := by decide
  have h2 : validatePercentage (.dec DefaultParams.AllocationLimit) = .nil := by decide
  refine ⟨?_, by decide⟩
  intro registry hweek
  have h3 : ValidateEpochIdentifierString registry DefaultParams.IncentivesEpochIdentifier
      = .nil := by
    have hne : ¬ ("week" : String) = "" := by decide
    show (if ("week" : String) ≠ "" ∧ "week" ∈ registry then Result.nil
      else .err (.identifierGrammar "week")) = .nil
    rw [if_pos ⟨hne, hweek⟩]
  refine ⟨rfl, h1, h2, h3, ?_⟩
  rw [Validate_of_fields_nil registry DefaultParams h1 h2]
  exact h3

/-- Witness for C5: with the recognized identifiers "week" and "month" the default aggregate
validates. -/
theorem DefaultParams_Validate_witness :
    "week" ∈ ["week", "month"] ∧ DefaultParams.Validate ["week", "month"] = .nil :=
  ⟨by decide, (DefaultParams_Validate.1 ["week", "month"] (by decide)).2.2.2.2⟩

/-- C6: `Validate` returns the outcome of the first failing check in the order boolean, period,
percentage, identifier. In particular, when the duration is not positive the result is the range
error of `validatePeriod`, whatever the allocation limit and the identifier are; so it is for
`NewParams(true, -1*time.Hour, 0.05, "week")`. -/
theorem Validate_first_error (registry : List String) (p : Params) :
    validateBool (.bool p.EnableIncentives) = .nil ∧
    (validatePeriod (.duration p.EpochDuration) ≠ .nil →
      p.Validate registry = validatePeriod (.duration p.EpochDuration)) ∧
    (validatePeriod (.duration p.EpochDuration) = .nil →
      validatePercentage (.dec p.AllocationLimit) ≠ .nil →
      p.Validate registry = validatePercentage (.dec p.AllocationLimit)) ∧
    (validatePeriod (.duration p.EpochDuration) = .nil →
      validatePercentage (.dec p.AllocationLimit) = .nil →
      p.Validate registry
        = ValidateEpochIdentifierString registry p.IncentivesEpochIdentifier) ∧
    (∀ (b : Bool) (d : Int) (a : Dec) (id : String), d ≤ 0 →
      (NewParams b d a id).Validate registry = validatePeriod (.duration d) ∧
      (NewParams b d a id).Validate registry
        = .err (.errorf "voting period must be positive: %s" (.duration d))) ∧
    (NewParams true (-1 * Hour) (NewDecWithPrec 5 2) "week").Validate registry
      = .err (.errorf "voting period must be positive: %s" (.duration (-3600000000000))) := by
  have hneg : ∀ (b : Bool) (d : Int) (a : Dec) (id : String), d ≤ 0 →
      (NewParams b d a id).Validate registry = validatePeriod (.duration d) ∧
      (NewParams b d a id).Validate registry
        = .err (.errorf "voting period must be positive: %s" (.duration d)) := by
    intro b d a id hd
    have hv : validatePeriod (.duration d)
        = .err (.errorf "voting period must be positive: %s" (.duration d)) := by
      rw [validatePeriod_duration, if_pos hd]
    have hne : validatePeriod (.duration (NewParams b d a id).EpochDuration) ≠ .nil := by
      show validatePeriod (.duration d) ≠ .nil
      rw [hv]
      exact fun h => Result.noConfusion h
    have hval := Validate_of_period_ne registry (NewParams b d a id) hne
    exact ⟨hval, hval.trans hv⟩
  refine ⟨rfl, Validate_of_period_ne registry p, Validate_of_percentage_ne registry p,
    Validate_of_fields_nil registry p, hneg, ?_⟩
  have hh : (-1 * Hour : Int) = -3600000000000 := by decide
  rw [hh]
  exact (hneg true (-3600000000000) (NewDecWithPrec 5 2) "week" (by decide)).2

/-- Witness for C6: with duration `-1`, a nil allocation limit and an empty identifier, the
error is the one of `validatePeriod`. -/
theorem Validate_first_error_witness :
    (-1 : Int) ≤ 0 ∧
    validatePeriod (.duration (NewParams false (-1) ⟨none⟩ "").EpochDuration) ≠ .nil ∧
    (NewParams false (-1) ⟨none⟩ "").Validate ["day", "week"]
      = validatePeriod (.duration (-1)) ∧
    (NewParams false (-1) ⟨none⟩ "").Validate ["day", "week"]
      = .err (.errorf "voting period must be positive: %s" (.duration (-1))) :=
  have h := Validate_first_error ["day", "week"] (NewParams false (-1) ⟨none⟩ "")
  ⟨by decide, by decide, h.2.1 (by decide),
    (h.2.2.2.2.1 false (-1) ⟨none⟩ "" (by decide)).2⟩

/-- C8: `validatePercentage` reports the error of the first applicable condition: wrong type,
then nil decimal, then negative value, then value above one; otherwise it succeeds. Every input
gets exactly one of these five outcomes (never a panic), the range errors are returned only for
present decimals, and the nil decimal gets the absence error although both range comparisons
would fail on it. -/
theorem validatePercentage_first_error (v : GoValue) :
    ((∀ d : Dec, v ≠ .dec d) →
      validatePercentage v = .err (.errorf "invalid parameter type: %T" v)) ∧
    (v = .dec ⟨none⟩ →
      validatePercentage v = .err (.new "allocation limit cannot be nil")) ∧
    (∀ (d : Dec) (f : ℚ), v = .dec d → d.value = some f → f < 0 →
      validatePercentage v = .err (.errorf "allocation limit must be positive: %s" v)) ∧
    (∀ (d : Dec) (f : ℚ), v = .dec d → d.value = some f → 0 ≤ f → 1 < f →
      validatePercentage v = .err (.errorf "allocation limit must <= 100: %s" v)) ∧
    (∀ (d : Dec) (f : ℚ), v = .dec d → d.value = some f → 0 ≤ f → f ≤ 1 →
      validatePercentage v = .nil) ∧
    (validatePercentage v = .nil ∨
      validatePercentage v = .err (.errorf "invalid parameter type: %T" v) ∨
      validatePercentage v = .err (.new "allocation limit cannot be nil") ∨
      validatePercentage v = .err (.errorf "allocation limit must be positive: %s" v) ∨
      validatePercentage v = .err (.errorf "allocation limit must <= 100: %s" v)) ∧
    (∀ a : GoValue,
      validatePercentage v = .err (.errorf "allocation limit must be positive: %s" a) →
      ∃ (d : Dec) (f : ℚ), v = .dec d ∧ a = v ∧ d.value = some f ∧ f < 0) ∧
    (∀ a : GoValue,
      validatePercentage v = .err (.errorf "allocation limit must <= 100: %s" a) →
      ∃ (d : Dec) (f : ℚ), v = .dec d ∧ a = v ∧ d.value = some f ∧ 1 < f) ∧
    ((Dec.mk none).IsNegative = none ∧ (Dec.mk none).GT OneDec = none ∧
      validatePercentage (.dec ⟨none⟩) = .err (.new "allocation limit cannot be nil")) := by
  have hfmt1 : ¬ ("invalid parameter type: %T" : String)
      = "allocation limit must be positive: %s" := by decide
  have hfmt2 : ¬ ("invalid parameter type: %T" : String)
      = "allocation limit must <= 100: %s" := by decide
  have hfmt3 : ¬ ("allocation limit must be positive: %s" : String)
      = "allocation limit must <= 100: %s" := by decide
  refine ⟨validatePercentage_other v, ?_, ?_, ?_, ?_, ?_, ?_, ?_, rfl, rfl, rfl⟩
  · rintro rfl
    rfl
  · rintro d f rfl hf hneg
    obtain ⟨x, rfl, rfl⟩ := (Dec.value_eq_some_iff d f).1 hf
    rw [validatePercentage_present, if_pos ((scaled_neg_iff x).1 hneg)]
  · rintro d f rfl hf h0 hbig
    obtain ⟨x, rfl, rfl⟩ := (Dec.value_eq_some_iff d f).1 hf
    have hx0 : ¬ x < 0 := fun h => not_lt.2 h0 ((scaled_neg_iff x).2 h)
    rw [validatePercentage_present, if_neg hx0, if_pos ((scaled_gt_one_iff x).1 hbig)]
  · rintro d f rfl hf h0 h1
    exact (validatePercentage_dec_nil_iff d).2
      ⟨by
        obtain ⟨x, rfl, _⟩ := (Dec.value_eq_some_iff d f).1 hf
        rfl, f, hf, h0, h1⟩
  · by_cases hty : ∀ d : Dec, v ≠ .dec d
    · exact Or.inr (Or.inl (validatePercentage_other v hty))
    · push_neg at hty
      obtain ⟨⟨i⟩, rfl⟩ := hty
      cases i with
      | none => exact Or.inr (Or.inr (Or.inl rfl))
      | some x =>
        rw [validatePercentage_present]
        by_cases h1 : x < 0
        · rw [if_pos h1]
          exact Or.inr (Or.inr (Or.inr (Or.inl rfl)))
        · rw [if_neg h1]
          by_cases h2 : (10 : Int) ^ Precision < x
          · rw [if_pos h2]
            exact Or.inr (Or.inr (Or.inr (Or.inr rfl)))
          · rw [if_neg h2]
            exact Or.inl rfl
  · intro a h
    by_cases hty : ∀ d : Dec, v ≠ .dec d
    · rw [validatePercentage_other v hty] at h
      injection h with h
      injection h with h _
      exact absurd h hfmt1
    · push_neg at hty
      obtain ⟨⟨i⟩, rfl⟩ := hty
      cases i with
      | none =>
        rw [validatePercentage_nil_dec] at h
        injection h with h
        exact GoError.noConfusion h
      | some x =>
        rw [validatePercentage_present] at h
        by_cases h1 : x < 0
        · rw [if_pos h1] at h
          injection h with h
          injection h with _ h
          exact ⟨⟨some x⟩, _, rfl, h.symm, rfl, (scaled_neg_iff x).2 h1⟩
        · rw [if_neg h1] at h
          by_cases h2 : (10 : Int) ^ Precision < x
          · rw [if_pos h2] at h
            injection h with h
            injection h with h _
            exact absurd h.symm hfmt3
          · rw [if_neg h2] at h
            exact Result.noConfusion h
  · intro a h
    by_cases hty : ∀ d : Dec, v ≠ .dec d
    · rw [validatePercentage_other v hty] at h
      injection h with h
      injection h with h _
      exact absurd h hfmt2
    · push_neg at hty
      obtain ⟨⟨i⟩, rfl⟩ := hty
      cases i with
      | none =>
        rw [validatePercentage_nil_dec] at h
        injection h with h
        exact GoError.noConfusion h
      | some x =>
        rw [validatePercentage_present] at h
        by_cases h1 : x < 0
        · rw [if_pos h1] at h
          injection h with h
          injection h with h _
          exact absurd h hfmt3
        · rw [if_neg h1] at h
          by_cases h2 : (10 : Int) ^ Precision < x
          · rw [if_pos h2] at h
            injection h with h
            injection h with _ h
            exact ⟨⟨some x⟩, _, rfl, h.symm, rfl, (scaled_gt_one_iff x).2 h2⟩
          · rw [if_neg h2] at h
            exact Result.noConfusion h

/-- Witness for C8: the string "0.5" is not a decimal and gets the type-mismatch error. -/
theorem validatePercentage_first_error_witness :
    (∀ d : Dec, GoValue.string "0.5" ≠ .dec d) ∧
    validatePercentage (.string "0.5")
      = .err (.errorf "invalid parameter type: %T" (.string "0.5")) :=
  ⟨fun _ h => GoValue.noConfusion h,
    (validatePercentage_first_error (.string "0.5")).1 (fun _ h => GoValue.noConfusion h)⟩

/-- C10: with a positive duration and a legal identifier, `Validate` fails with the
allocation-limit range error for the limit `1.5`, and for every present limit above one or
below zero, and returns no error for the limit `1.0` and for every limit in `[0, 1]`. -/
theorem Validate_allocation_limit (registry : List String) (b : Bool) (d : Int) (id : String)
    (hd : 0 < d) (hid : ValidateEpochIdentifierString registry id = .nil) :
    ((NewDecWithPrec 15 1).value = some (3 / 2) ∧
      (NewParams b d (NewDecWithPrec 15 1) id).Validate registry
        = .err (.errorf "allocation limit must <= 100: %s" (.dec (NewDecWithPrec 15 1)))) ∧
    ((NewDecWithPrec 1 0).value = some 1 ∧
      (NewParams b d (NewDecWithPrec 1 0) id).Validate registry = .nil) ∧
    (∀ (a : Dec) (f : ℚ), a.value = some f →
      (1 < f → (NewParams b d a id).Validate registry
        = .err (.errorf "allocation limit must <= 100: %s" (.dec a))) ∧
      (f < 0 → (NewParams b d a id).Validate registry
        = .err (.errorf "allocation limit must be positive: %s" (.dec a))) ∧
      (0 ≤ f → f ≤ 1 → (NewParams b d a id).Validate registry = .nil)) := by
  have hp : ∀ a : Dec,
      validatePeriod (.duration (NewParams b d a id).EpochDuration) = .nil :=
    fun a => (validatePeriod_duration_nil_iff d).2 hd
  have hfail : ∀ (a : Dec) (e : GoError), validatePercentage (.dec a) = .err e →
      (NewParams b d a id).Validate registry = .err e := by
    intro a e he
    have hne : validatePercentage (.dec (NewParams b d a id).AllocationLimit) ≠ .nil := by
      show validatePercentage (.dec a) ≠ .nil
      rw [he]
      exact fun h => Result.noConfusion h
    exact (Validate_of_percentage_ne registry _ (hp a) hne).trans he
  have hok : ∀ a : Dec, validatePercentage (.dec a) = .nil →
      (NewParams b d a id).Validate registry = .nil := by
    intro a ha
    exact (Validate_of_fields_nil registry (NewParams b d a id) (hp a) ha).trans hid
  have h15 : NewDecWithPrec 15 1 = ⟨some 1500000000000000000⟩ := by decide
  have h10 : NewDecWithPrec 1 0 = ⟨some 1000000000000000000⟩ := by decide
  refine ⟨⟨?_, hfail _ _ (by decide)⟩, ⟨?_, hok _ (by decide)⟩, ?_⟩
  · rw [h15, Dec.value_mk_some]
    norm_num [Precision]
  · rw [h10, Dec.value_mk_some]
    norm_num [Precision]
  · intro a f hf
    obtain ⟨x, rfl, rfl⟩ := (Dec.value_eq_some_iff a f).1 hf
    refine ⟨?_, ?_, ?_⟩
    · intro hbig
      have hx1 : (10 : Int) ^ Precision < x := (scaled_gt_one_iff x).1 hbig
      have hx0 : ¬ x < 0 := by
        have : (0 : Int) < 10 ^ Precision := by positivity
        omega
      apply hfail
      rw [validatePercentage_present, if_neg hx0, if_pos hx1]
    · intro hneg
      apply hfail
      rw [validatePercentage_present, if_pos ((scaled_neg_iff x).1 hneg)]
    · intro h0 h1
      apply hok
      exact (validatePercentage_dec_nil_iff _).2 ⟨rfl, _, rfl, h0, h1⟩

/-- Witness for C10: `NewParams(true, 24h, 1.5, "week")` fails and `NewParams(true, 24h, 1.0,
"week")` validates when "day" and "week" are the recognized identifiers. -/
theorem Validate_allocation_limit_witness :
    (0 : Int) < 24 * Hour ∧ ValidateEpochIdentifierString ["day", "week"] "week" = .nil ∧
    (NewParams true (24 * Hour) (NewDecWithPrec 15 1) "week").Validate ["day", "week"]
      = .err (.errorf "allocation limit must <= 100: %s" (.dec (NewDecWithPrec 15 1))) ∧
    (NewParams true (24 * Hour) (NewDecWithPrec 1 0) "week").Validate ["day", "week"] = .nil :=
  have h := Validate_allocation_limit ["day", "week"] true (24 * Hour) "week"
    (by decide) (by decide)
  ⟨by decide, by decide, h.1.2, h.2.1.2⟩

/-! ## Construction -/

/-- C7: `NewParams(a, b, c, d)` returns the aggregate whose four fields are exactly `a`, `b`,
`c` and `d`, for all arguments, valid or not (the nil decimal included). -/
theorem NewParams_fields (a : Bool) (b : Int) (c : Dec) (d : String) :
    (NewParams a b c d).EnableIncentives = a ∧
    (NewParams a b c d).EpochDuration = b ∧
    (NewParams a b c d).AllocationLimit = c ∧
    (NewParams a b c d).IncentivesEpochIdentifier = d ∧
    NewParams a b c d = ⟨a, b, c, d⟩ :=
  ⟨rfl, rfl, rfl, rfl, rfl⟩

/-- C9: `DefaultParams()` has the enable flag `true`, the duration 24 hours, which is
`86400000000000` nanoseconds and lies in the `int64` range, the allocation limit `5/100`, and
the identifier "week"; it equals `NewParams(true, 24*time.Hour, sdk.NewDecWithPrec(5, 2),
"week")`. -/
theorem DefaultParams_eq :
    DefaultParams.EnableIncentives = true ∧
    (DefaultParams.EpochDuration = 24 * Hour ∧
      DefaultParams.EpochDuration = 86400000000000 ∧
      minInt64 ≤ DefaultParams.EpochDuration ∧ DefaultParams.EpochDuration ≤ maxInt64) ∧
    (DefaultParams.AllocationLimit = ⟨some 50000000000000000⟩ ∧
      DefaultParams.AllocationLimit.value = some (5 / 100)) ∧
    DefaultParams.IncentivesEpochIdentifier = "week" ∧
    DefaultParams = NewParams true (24 * Hour) (NewDecWithPrec 5 2) "week" := by
  have ha : DefaultParams.AllocationLimit = ⟨some 50000000000000000⟩ := by decide
  refine ⟨rfl, ⟨by decide, by decide, by decide, by decide⟩, ⟨ha, ?_⟩, rfl, by decide⟩
  rw [ha, Dec.value_mk_some]
  norm_num [Precision]

/-! ## Unrecognized identifiers -/

/-- C11: when the duration is positive and the allocation limit lies in `[0, 1]`, whatever the
enable flag, an identifier the registry does not recognize makes `Validate` fail with the
identifier-grammar error; so it is for "fortnight" when "day" and "week" are registered. -/
theorem Validate_unrecognized_identifier (registry : List String) (p : Params)
    (hd : 0 < p.EpochDuration)
    (ha : ∃ f : ℚ, p.AllocationLimit.value = some f ∧ 0 ≤ f ∧ f ≤ 1)
    (hid : p.IncentivesEpochIdentifier ∉ registry) :
    p.Validate registry = .err (.identifierGrammar p.IncentivesEpochIdentifier) ∧
    (NewParams true (24 * Hour) (NewDecWithPrec 5 2) "fortnight").Validate ["day", "week"]
      = .err (.identifierGrammar "fortnight") := by
  refine ⟨?_, by decide⟩
  obtain ⟨f, hf, h0, h1⟩ := ha
  have hnil : p.AllocationLimit.IsNil = false := by
    obtain ⟨x, hx, _⟩ := (Dec.value_eq_some_iff _ f).1 hf
    rw [hx]
    rfl
  rw [Validate_of_fields_nil registry p ((validatePeriod_duration_nil_iff _).2 hd)
    ((validatePercentage_dec_nil_iff _).2 ⟨hnil, f, hf, h0, h1⟩)]
  exact ValidateEpochIdentifierString_of_not_mem registry _ hid

/-- Witness for C11: `NewParams(false, 1h, 1.0, "fortnight")` fails on the identifier when "day"
and "week" are registered. -/
theorem Validate_unrecognized_identifier_witness :
    (0 : Int) < (NewParams false Hour (NewDecWithPrec 1 0) "fortnight").EpochDuration ∧
    (NewParams false Hour (NewDecWithPrec 1 0) "fortnight").AllocationLimit.value = some 1 ∧
    (NewParams false Hour (NewDecWithPrec 1 0) "fortnight").IncentivesEpochIdentifier
      ∉ ["day", "week"] ∧
    (NewParams false Hour (NewDecWithPrec 1 0) "fortnight").Validate ["day", "week"]
      = .err (.identifierGrammar "fortnight") :=
  have hv : (NewParams false Hour (NewDecWithPrec 1 0) "fortnight").AllocationLimit.value
      = some 1 := by
    have h : (NewParams false Hour (NewDecWithPrec 1 0) "fortnight").AllocationLimit
        = ⟨some 1000000000000000000⟩ := by decide
    rw [h, Dec.value_mk_some]
    norm_num [Precision]
  ⟨by decide, hv, by decide,
    (Validate_unrecognized_identifier ["day", "week"]
      (NewParams false Hour (NewDecWithPrec 1 0) "fortnight") (by decide)
      ⟨1, hv, by norm_num, by norm_num⟩ (by decide)).1⟩

/-! ## The key table -/

/-- C12: `ParamSetPairs` returns exactly four bindings, in the order EnableIncentives,
EpochDuration, AllocationLimit, EpochIdentifier. Their keys are the bytes of these four names,
non-empty and pairwise distinct; each binding points at the corresponding field of the
receiver, every field is bound, and the validators are `validateBool`, `validatePeriod`,
`validatePercentage` and the generic identifier validator. -/
theorem ParamSetPairs_bindings (p : Params) :
    p.ParamSetPairs.length = 4 ∧
    p.ParamSetPairs.map (fun b => b.Key)
      = [bytes "EnableIncentives", bytes "EpochDuration", bytes "AllocationLimit",
          bytes "EpochIdentifier"] ∧
    (∀ k ∈ p.ParamSetPairs.map (fun b => b.Key), k ≠ []) ∧
    (p.ParamSetPairs.map (fun b => b.Key)).Nodup ∧
    p.ParamSetPairs.map (fun b => b.Value)
      = [⟨p, .EnableIncentives⟩, ⟨p, .EpochDuration⟩, ⟨p, .AllocationLimit⟩,
          ⟨p, .IncentivesEpochIdentifier⟩] ∧
    p.ParamSetPairs.map (fun b => b.Value.load)
      = [.bool p.EnableIncentives, .duration p.EpochDuration, .dec p.AllocationLimit,
          .string p.IncentivesEpochIdentifier] ∧
    (∀ f : Field, ∃ b ∈ p.ParamSetPairs, b.Value = ⟨p, f⟩) ∧
    p.ParamSetPairs.map (fun b => b.ValidatorFn)
      = [validateBool, validatePeriod, validatePercentage,
          ValidateEpochIdentifierInterface] := by
  have hkeys : p.ParamSetPairs.map (fun b => b.Key)
      = [bytes "EnableIncentives", bytes "EpochDuration", bytes "AllocationLimit",
          bytes "EpochIdentifier"] := rfl
  refine ⟨rfl, hkeys, ?_, ?_, rfl, rfl, ?_, rfl⟩
  · rw [hkeys]
    decide
  · rw [hkeys]
    decide
  · intro f
    cases f with
    | EnableIncentives =>
      exact ⟨NewParamSetPair ParamStoreKeyEnableIncentives ⟨p, .EnableIncentives⟩
        validateBool, by simp [Params.ParamSetPairs], rfl⟩
    | EpochDuration =>
      exact ⟨NewParamSetPair ParamStoreKeyEpochDuration ⟨p, .EpochDuration⟩
        validatePeriod, by simp [Params.ParamSetPairs], rfl⟩
    | AllocationLimit =>
      exact ⟨NewParamSetPair ParamStoreKeyAllocationLimit ⟨p, .AllocationLimit⟩
        validatePercentage, by simp [Params.ParamSetPairs], rfl⟩
    | IncentivesEpochIdentifier =>
      exact ⟨NewParamSetPair ParamStoreKeyEpochIdentifier ⟨p, .IncentivesEpochIdentifier⟩
        ValidateEpochIdentifierInterface, by simp [Params.ParamSetPairs], rfl⟩

/-- Witness for C12: the key of the second binding of the default aggregate is not empty. -/
theorem ParamSetPairs_bindings_witness :
    bytes "EpochDuration" ∈ DefaultParams.ParamSetPairs.map (fun b => b.Key) ∧
    bytes "EpochDuration" ≠ [] :=
  ⟨by decide,
    (ParamSetPairs_bindings DefaultParams).2.2.1 (bytes "EpochDuration") (by decide)⟩

/-- C13: a failure of `validatePeriod` is the type-mismatch error, with the message "invalid
parameter type: " followed by the dynamic type, exactly when the input is not a duration, and
the range error, with the message "voting period must be positive: " followed by the duration,
exactly when the input is a duration `d ≤ 0`. The 64-bit integer `5` gets the type-mismatch
error. -/
theorem validatePeriod_error_kinds (str : GoValue → String) (v : GoValue) :
    (∀ e : GoError, validatePeriod v = .err e →
      e = .errorf "invalid parameter type: %T" v ∨
      e = .errorf "voting period must be positive: %s" v) ∧
    (validatePeriod v = .err (.errorf "invalid parameter type: %T" v) ↔
      ∀ d : Int, v ≠ .duration d) ∧
    (validatePeriod v = .err (.errorf "voting period must be positive: %s" v) ↔
      ∃ d : Int, v = .duration d ∧ d ≤ 0) ∧
    validatePeriod v ≠ .panic ∧
    errorfMessage str "invalid parameter type: %T" v
      = "invalid parameter type: " ++ typeName v ∧
    errorfMessage str "voting period must be positive: %s" v
      = "voting period must be positive: " ++ str v ∧
    (validatePeriod (.int64 5) = .err (.errorf "invalid parameter type: %T" (.int64 5)) ∧
      errorfMessage str "invalid parameter type: %T" (.int64 5)
        = "invalid parameter type: int64") := by
  have hfmt : ¬ ("invalid parameter type: %T" : String)
      = "voting period must be positive: %s" := by decide
  have hint : errorfMessage str "invalid parameter type: %T" (.int64 5)
      = "invalid parameter type: int64" := by
    rw [errorfMessage_type]
    rfl
  refine ⟨?_, ?_, ?_, ?_, errorfMessage_type str v, errorfMessage_period str v, rfl, hint⟩
  · intro e he
    by_cases hty : ∀ d : Int, v ≠ .duration d
    · rw [validatePeriod_other v hty] at he
      injection he with he
      exact Or.inl he.symm
    · push_neg at hty
      obtain ⟨d, rfl⟩ := hty
      rw [validatePeriod_duration] at he
      by_cases hd : d ≤ 0
      · rw [if_pos hd] at he
        injection he with he
        exact Or.inr he.symm
      · rw [if_neg hd] at he
        exact Result.noConfusion he
  · constructor
    · intro h d hv
      subst hv
      rw [validatePeriod_duration] at h
      by_cases hd : d ≤ 0
      · rw [if_pos hd] at h
        injection h with h
        injection h with h _
        exact hfmt h.symm
      · rw [if_neg hd] at h
        exact Result.noConfusion h
    · intro hty
      exact validatePeriod_other v hty
  · constructor
    · intro h
      by_cases hty : ∀ d : Int, v ≠ .duration d
      · rw [validatePeriod_other v hty] at h
        injection h with h
        injection h with h _
        exact absurd h hfmt
      · push_neg at hty
        obtain ⟨d, rfl⟩ := hty
        refine ⟨d, rfl, ?_⟩
        by_contra hd
        rw [validatePeriod_duration, if_neg hd] at h
        exact Result.noConfusion h
    · rintro ⟨d, rfl, hd⟩
      rw [validatePeriod_duration, if_pos hd]
  · intro h
    by_cases hty : ∀ d : Int, v ≠ .duration d
    · rw [validatePeriod_other v hty] at h
      exact Result.noConfusion h
    · push_neg at hty
      obtain ⟨d, rfl⟩ := hty
      rw [validatePeriod_duration] at h
      by_cases hd : d ≤ 0
      · rw [if_pos hd] at h
        exact Result.noConfusion h
      · rw [if_neg hd] at h
        exact Result.noConfusion h

/-- Witness for C13: the duration `-1h` fails, and its error is the range error. -/
theorem validatePeriod_error_kinds_witness :
    validatePeriod (.duration (-1 * Hour))
      = .err (.errorf "voting period must be positive: %s" (.duration (-1 * Hour))) ∧
    (GoError.errorf "voting period must be positive: %s" (.duration (-1 * Hour))
        = .errorf "invalid parameter type: %T" (.duration (-1 * Hour)) ∨
      GoError.errorf "voting period must be positive: %s" (.duration (-1 * Hour))
        = .errorf "voting period must be positive: %s" (.duration (-1 * Hour))) :=
  ⟨by decide,
    (validatePeriod_error_kinds (fun _ => "") (.duration (-1 * Hour))).1 _ (by decide)⟩

/-! ## The enable flag and the write gates -/

/-- C14: two aggregates that agree on the duration, the allocation limit and the identifier get
the same result from `Validate`, whatever their enable flags are; the boolean check always
passes, and `Validate` never returns a type-mismatch error. -/
theorem Validate_enable_flag_irrelevant (registry : List String) (p q : Params)
    (h1 : p.EpochDuration = q.EpochDuration)
    (h2 : p.AllocationLimit = q.AllocationLimit)
    (h3 : p.IncentivesEpochIdentifier = q.IncentivesEpochIdentifier) :
    p.Validate registry = q.Validate registry ∧
    validateBool (.bool p.EnableIncentives) = .nil ∧
    validateBool (.bool q.EnableIncentives) = .nil ∧
    (∀ a : GoValue, p.Validate registry ≠ .err (.errorf "invalid parameter type: %T" a)) := by
  have hf1 : ¬ ("voting period must be positive: %s" : String)
      = "invalid parameter type: %T" := by decide
  have hf2 : ¬ ("allocation limit must be positive: %s" : String)
      = "invalid parameter type: %T" := by decide
  have hf3 : ¬ ("allocation limit must <= 100: %s" : String)
      = "invalid parameter type: %T" := by decide
  refine ⟨?_, rfl, rfl, ?_⟩
  · obtain ⟨pe, pd, pa, pi⟩ := p
    obtain ⟨qe, qd, qa, qi⟩ := q
    simp only at h1 h2 h3
    subst h1 h2 h3
    rfl
  · intro a h
    rcases Validate_cases registry p with hc | hc | hc | hc | hc | hc
    · rw [hc] at h
      exact Result.noConfusion h
    · rw [hc] at h
      injection h with h
      injection h with h _
      exact hf1 h
    · rw [hc] at h
      injection h with h
      exact GoError.noConfusion h
    · rw [hc] at h
      injection h with h
      injection h with h _
      exact hf2 h
    · rw [hc] at h
      injection h with h
      injection h with h _
      exact hf3 h
    · rw [hc] at h
      injection h with h
      exact GoError.noConfusion h

/-- Witness for C14: with a nil allocation limit, the flag `true` and the flag `false` get the
same result. -/
theorem Validate_enable_flag_irrelevant_witness :
    (NewParams true Hour ⟨none⟩ "week").EpochDuration
      = (NewParams false Hour ⟨none⟩ "week").EpochDuration ∧
    (NewParams true Hour ⟨none⟩ "week").AllocationLimit
      = (NewParams false Hour ⟨none⟩ "week").AllocationLimit ∧
    (NewParams true Hour ⟨none⟩ "week").IncentivesEpochIdentifier
      = (NewParams false Hour ⟨none⟩ "week").IncentivesEpochIdentifier ∧
    (NewParams true Hour ⟨none⟩ "week").Validate ["day", "week"]
      = (NewParams false Hour ⟨none⟩ "week").Validate ["day", "week"] ∧
    (NewParams true Hour ⟨none⟩ "week").Validate ["day", "week"]
      = .err (.new "allocation limit cannot be nil") :=
  ⟨rfl, rfl, rfl,
    (Validate_enable_flag_irrelevant ["day", "week"] (NewParams true Hour ⟨none⟩ "week")
      (NewParams false Hour ⟨none⟩ "week") rfl rfl rfl).1,
    by decide⟩

/-- C15: when `Validate` returns no error, each of the four validators of `ParamSetPairs`
accepts the current value of the field its binding points at: `validateBool` the enable flag,
`validatePeriod` the duration, `validatePercentage` the allocation limit, and the generic
identifier validator the identifier, which the strict check accepts too. -/
theorem Validate_nil_pairs_accept (registry : List String) (p : Params)
    (h : p.Validate registry = .nil) :
    (∀ b ∈ p.ParamSetPairs, b.ValidatorFn b.Value.load = .nil) ∧
    validateBool (.bool p.EnableIncentives) = .nil ∧
    validatePeriod (.duration p.EpochDuration) = .nil ∧
    validatePercentage (.dec p.AllocationLimit) = .nil ∧
    ValidateEpochIdentifierInterface (.string p.IncentivesEpochIdentifier) = .nil ∧
    ValidateEpochIdentifierString registry p.IncentivesEpochIdentifier = .nil := by
  obtain ⟨hp, ha, hi⟩ := Validate_nil_fields registry p h
  have hg : ValidateEpochIdentifierInterface (.string p.IncentivesEpochIdentifier) = .nil := by
    have hne : p.IncentivesEpochIdentifier ≠ "" :=
      ((ValidateEpochIdentifierString_nil_iff registry _).1 hi).1
    show (if p.IncentivesEpochIdentifier ≠ "" then Result.nil
      else .err (.identifierGrammar p.IncentivesEpochIdentifier)) = .nil
    rw [if_pos hne]
  refine ⟨?_, rfl, hp, ha, hg, hi⟩
  intro b hb
  simp only [Params.ParamSetPairs, List.mem_cons, List.mem_singleton, List.not_mem_nil,
    or_false] at hb
  rcases hb with rfl | rfl | rfl | rfl
  · rfl
  · exact hp
  · exact ha
  · exact hg

/-- Witness for C15: the default aggregate validates when "day" and "week" are registered, and
every validator of its key table accepts the field it is bound to. -/
theorem Validate_nil_pairs_accept_witness :
    DefaultParams.Validate ["day", "week"] = .nil ∧
    (∀ b ∈ DefaultParams.ParamSetPairs, b.ValidatorFn b.Value.load = .nil) :=
  ⟨by decide, (Validate_nil_pairs_accept ["day", "week"] DefaultParams (by decide)).1⟩

end Incentives
